import Mathlib

/-!
Shallow embedding of the MyInfoGovClient core (myinfo-gov-client): the
client configuration and constructor, the redirect-URL builder, the
PKI request signer, the token exchange, the identity-token extractor
and the person-request orchestration.  Effectful externals (HTTP
transport, RSA signing, nonce and timestamp generation, JWT signature
verification) are passed in as explicit parameters or oracle results,
mirroring exactly how the source consumes them.
-/

namespace MyInfoClient

/-- A JavaScript runtime value at the granularity the client inspects:
strings, numbers, booleans, null, arrays and plain objects (ordered
field lists).  Used for decoded JWT payloads and HTTP response bodies. -/
inductive JSVal where
  | str : String → JSVal
  | num : Int → JSVal
  | bool : Bool → JSVal
  | null : JSVal
  | arr : List JSVal → JSVal
  | obj : List (String × JSVal) → JSVal

/-- Field lookup in a JavaScript object field list (first match wins;
JS objects have unique keys, so at most one match exists). -/
def jsObjGet : List (String × JSVal) → String → Option JSVal
  | [], _ => none
  | (k, v) :: rest, key => if k = key then some v else jsObjGet rest key

/-- JavaScript property access val.key: an own property of an object, and
undefined (none) on every other value the client can encounter. -/
def jsGetField : JSVal → String → Option JSVal
  | .obj fields, key => jsObjGet fields key
  | _, _ => none

/-- The JavaScript typeof operator on the values of JSVal.  Note that
typeof null and typeof of an array are both the string object. -/
def jsTypeof : JSVal → String
  | .str _ => "string"
  | .num _ => "number"
  | .bool _ => "boolean"
  | .null => "object"
  | .arr _ => "object"
  | .obj _ => "object"

/-- Modelled from the spec: hasProp from util.ts is not under src/ (only
its import and call sites are).  It tests whether a value has the given
own property, which for the object values the extractor inspects means a
field of that name is present. -/
def hasProp (v : JSVal) (key : String) : Bool :=
  match v with
  | .obj fields => (jsObjGet fields key).isSome
  | _ => false

/-- Executable lexicographic comparison of character lists by character
code.  Equivalent to the standard list order (proved below); written as
a structurally recursive Boolean function so that concrete sorts
evaluate inside the kernel. -/
def charListLe : List Char → List Char → Bool
  | [], _ => true
  | _ :: _, [] => false
  | a :: as, b :: bs => if a = b then charListLe as bs else decide (a < b)

/-- Executable lexicographic string comparison by character code. -/
def strLe (a b : String) : Bool := charListLe a.data b.data

/-- The key order used by sortObjKeys: comparison of the keys. -/
def keyLe (a b : String × String) : Prop := strLe a.1 b.1 = true

instance : DecidableRel keyLe := fun a b =>
  inferInstanceAs (Decidable (strLe a.1 b.1 = true))

/-- Modelled from the spec: sortObjKeys from util.ts is not under src/
(only its import and call sites are).  Per spec section 4.1 it
re-expresses a mapping of string keys to string values with keys sorted
in ascending lexicographic order (by character code), values unchanged. -/
def sortObjKeys (obj : List (String × String)) : List (String × String) :=
  obj.insertionSort keyLe

/-- Model of qs.stringify on a flat string-to-string mapping with
encoding disabled (the encode false option, as passed at the signer call
site): keys and values are inserted literally and pairs are joined as
key=value with an ampersand separator. -/
def qsStringifyUnencoded : List (String × String) → String
  | [] => ""
  | [p] => p.1 ++ "=" ++ p.2
  | p :: rest => p.1 ++ "=" ++ p.2 ++ "&" ++ qsStringifyUnencoded rest

/-- Characters the qs default encoder leaves unescaped: ASCII
alphanumerics and hyphen, period, underscore, tilde. -/
def qsUnescapedChar (ch : Char) : Bool :=
  ch.isAlphanum || ch == '-' || ch == '.' || ch == '_' || ch == '~'

/-- Upper-case hexadecimal digit for a value below 16. -/
def hexDigit (n : Nat) : Char :=
  if n < 10 then Char.ofNat (48 + n) else Char.ofNat (55 + n)

/-- Percent-escape of one byte, upper-case hexadecimal. -/
def percentByte (b : Nat) : String :=
  "%" ++ String.singleton (hexDigit (b / 16 % 16)) ++ String.singleton (hexDigit (b % 16))

/-- UTF-8 bytes of a Unicode code point. -/
def utf8Bytes (n : Nat) : List Nat :=
  if n < 0x80 then [n]
  else if n < 0x800 then [0xC0 + n / 0x40, 0x80 + n % 0x40]
  else if n < 0x10000 then
    [0xE0 + n / 0x1000, 0x80 + n / 0x40 % 0x40, 0x80 + n % 0x40]
  else
    [0xF0 + n / 0x40000, 0x80 + n / 0x1000 % 0x40, 0x80 + n / 0x40 % 0x40, 0x80 + n % 0x40]

/-- Model of the qs default percent-encoder (RFC 3986 format): unescaped
characters pass through, every other character is replaced by the
percent-escapes of its UTF-8 bytes.  A space becomes a percent-escape,
never a plus sign. -/
def qsEncode (s : String) : String :=
  String.join (s.data.map fun ch =>
    if qsUnescapedChar ch then String.singleton ch
    else String.join ((utf8Bytes ch.toNat).map percentByte))

/-- Model of qs.stringify with its default encoder on a flat
string-to-string mapping, in insertion order. -/
def qsStringify : List (String × String) → String
  | [] => ""
  | [p] => qsEncode p.1 ++ "=" ++ qsEncode p.2
  | p :: rest => qsEncode p.1 ++ "=" ++ qsEncode p.2 ++ "&" ++ qsStringify rest

/-- The mode-to-base-URL table BASE_URL of the source. -/
def BASE_URL (mode : String) : Option String :=
  if mode = "dev" then some "http://localhost:5156/myinfo/v3"
  else if mode = "stg" then some "https://myinfosgstg.api.gov.sg/gov/test/v3"
  else if mode = "prod" then some "https://myinfosg.api.gov.sg/gov/v3"
  else none

/-- The production base URL, the fallback of the constructor lookup. -/
def PROD_URL : String := "https://myinfosg.api.gov.sg/gov/v3"

/-- Constructor parameters (IMyInfoConfig).  The mode field is optional
and, being a runtime string in JavaScript, is modelled as an arbitrary
string when present. -/
structure IMyInfoConfig where
  clientId : String
  clientSecret : String
  singpassEserviceId : String
  redirectEndpoint : String
  clientPrivateKey : String
  myInfoPublicKey : String
  mode : Option String

/-- The constructed client (MyInfoGovClient fields). -/
structure MyInfoGovClient where
  clientId : String
  clientSecret : String
  redirectEndpoint : String
  clientPrivateKey : String
  myInfoPublicKey : String
  singpassEserviceId : String
  mode : String
  baseAPIUrl : String

/-- Removing a single trailing newline, the normalization the
constructor applies to both keys. -/
def stripTrailingNewline (s : String) : String :=
  if s.endsWith "\n" then s.dropRight 1 else s

/-- The constructor error message of the source. -/
def missingParamsMsg : String :=
  "Missing required parameter(s) in constructor: clientId, clientSecret, singpassEserviceId, redirectEndpoint, clientPrivateKey, myInfoPublicKey"

/-- The MyInfoGovClient constructor: validates that the six required
fields are truthy (non-empty), defaults a falsy mode to production, and
falls back to the production base URL when the mode is not in the
BASE_URL table. -/
def mkMyInfoGovClient (config : IMyInfoConfig) : Except String MyInfoGovClient :=
  if config.clientId = "" ∨ config.clientSecret = "" ∨ config.singpassEserviceId = "" ∨
      config.redirectEndpoint = "" ∨ config.clientPrivateKey = "" ∨ config.myInfoPublicKey = "" then
    .error missingParamsMsg
  else
    let mode := match config.mode with
      | none => "prod"
      | some m => if m = "" then "prod" else m
    .ok
      { clientId := config.clientId
        clientSecret := config.clientSecret
        redirectEndpoint := config.redirectEndpoint
        clientPrivateKey := stripTrailingNewline config.clientPrivateKey
        myInfoPublicKey := stripTrailingNewline config.myInfoPublicKey
        singpassEserviceId := config.singpassEserviceId
        mode := mode
        baseAPIUrl := (BASE_URL mode).getD PROD_URL }

/-- Parameters of createRedirectURL (IAuthRequest). -/
structure IAuthRequest where
  purpose : String
  requestedAttributes : List String
  relayState : String
  singpassEserviceId : Option String
  redirectEndpoint : Option String

/-- createRedirectURL: the authorise URL with the six query parameters
in source order, requested attributes joined by commas, and the per-call
e-service id and redirect endpoint overriding the configured defaults
when supplied. -/
def createRedirectURL (c : MyInfoGovClient) (req : IAuthRequest) : String :=
  let queryParams : List (String × String) :=
    [("purpose", req.purpose),
     ("attributes", String.intercalate "," req.requestedAttributes),
     ("state", req.relayState),
     ("client_id", c.clientId),
     ("redirect_uri", req.redirectEndpoint.getD c.redirectEndpoint),
     ("sp_esvcId", req.singpassEserviceId.getD c.singpassEserviceId)]
  c.baseAPIUrl ++ "/authorise?" ++ qsStringify queryParams

/-- Model of the JavaScript toUpperCase call on the method string,
written over the character list so that it evaluates in the kernel. -/
def strToUpper (s : String) : String := ⟨s.data.map Char.toUpper⟩

/-- The keys of the four protocol parameters the signer merges over the
caller-supplied parameters. -/
def protocolKeys : List String := ["signature_method", "nonce", "timestamp", "app_id"]

/-- The merged parameter set of the signer: the JavaScript object spread
of the caller-supplied parameters with the four protocol parameters,
where the later protocol entries override caller entries of the same
key.  A JavaScript object has unique keys and the merged set is
immediately key-sorted by a stable sort, so entry order is immaterial
and the spread is modelled as the caller entries whose key is not a
protocol key followed by the four protocol entries. -/
def mergedAuthParams (c : MyInfoGovClient) (urlParams : List (String × String))
    (nonce timestamp : String) : List (String × String) :=
  (urlParams.filter fun p => !(protocolKeys.contains p.1)) ++
    [("signature_method", "RS256"), ("nonce", nonce), ("timestamp", timestamp),
     ("app_id", c.clientId)]

/-- The canonicalized parameter set the signer signs over. -/
def authParams (c : MyInfoGovClient) (urlParams : List (String × String))
    (nonce timestamp : String) : List (String × String) :=
  sortObjKeys (mergedAuthParams c urlParams nonce timestamp)

/-- The signing base string of generateAuthHeader: upper-cased method,
URL and the unencoded parameter string, joined by ampersands.  The
nonce and timestamp are generated per call and passed in explicitly. -/
def signingBaseString (c : MyInfoGovClient) (method url : String)
    (urlParams : List (String × String)) (nonce timestamp : String) : String :=
  strToUpper method ++ "&" ++ url ++ "&" ++
    qsStringifyUnencoded (authParams c urlParams nonce timestamp)

/-- The generateAuthHeader result.  The sign parameter stands for the
effectful RSA-SHA256 signing with the client private key followed by
base64 encoding; nonce and timestamp stand for the per-call random
bytes and current time. -/
def generateAuthHeader (c : MyInfoGovClient) (method url : String)
    (urlParams : List (String × String)) (nonce timestamp : String)
    (sign : String → String) : String :=
  "PKI_SIGN timestamp=\"" ++ timestamp ++ "\",nonce=\"" ++ nonce ++
    "\",app_id=\"" ++ c.clientId ++ "\",signature_method=\"RS256\",signature=\"" ++
    sign (signingBaseString c method url urlParams nonce timestamp) ++ "\""

/-- A decoded identity token as the jsonwebtoken verify interface sees
it: the algorithm named in its header, its decoded payload, and whether
its signature verifies under the supplied public key. -/
structure Jwt where
  alg : String
  payload : JSVal
  signatureValid : Bool

/-- Model of jsonwebtoken verify at the granularity the client uses: the
token algorithm must be in the allowed list (the algorithm check happens
before signature verification) and the signature must verify under the
key; on success the decoded payload is returned. -/
def verifyJwt (token : Jwt) (_key : String) (algorithms : List String) :
    Except String JSVal :=
  if !(algorithms.contains token.alg) then .error "invalid algorithm"
  else if !token.signatureValid then .error "invalid signature"
  else .ok token.payload

/-- The extractor error for a payload that is not an object. -/
def unexpectedShapeMsg : String := "JWT returned from MyInfo had unexpected shape"

/-- The extractor error for object claims without a string sub field. -/
def noUinFinMsg : String := "JWT returned from MyInfo did not contain UIN/FIN"

/-- The extractUinFin method: verify the token restricted to RS256,
require the decoded payload to be an object, and return its sub field
when that is a string. -/
def extractUinFin (c : MyInfoGovClient) (token : Jwt) : Except String String :=
  match verifyJwt token c.myInfoPublicKey ["RS256"] with
  | .error e => .error e
  | .ok decoded =>
    if jsTypeof decoded ≠ "object" then .error unexpectedShapeMsg
    else if hasProp decoded "sub" then
      match jsGetField decoded "sub" with
      | some (.str s) => .ok s
      | _ => .error noUinFinMsg
    else .error noUinFinMsg

/-- The outgoing token-exchange POST request of getAccessToken: its
URL, its form parameters, and its authorization header, which is signed
over that URL and that same full parameter set. -/
structure TokenPostRequest where
  url : String
  params : List (String × String)
  authHeader : String

/-- The request side of getAccessToken: the token endpoint URL, the five
POST parameters, and the authorization header signed over both. -/
def getAccessTokenRequest (c : MyInfoGovClient) (authCode nonce timestamp : String)
    (sign : String → String) : TokenPostRequest :=
  let postUrl := c.baseAPIUrl ++ "/token"
  let postParams : List (String × String) :=
    [("grant_type", "authorization_code"),
     ("code", authCode),
     ("redirect_uri", c.redirectEndpoint),
     ("client_id", c.clientId),
     ("client_secret", c.clientSecret)]
  { url := postUrl
    params := postParams
    authHeader := generateAuthHeader c "POST" postUrl postParams nonce timestamp sign }

/-- The response side of getAccessToken.  The argument is the outcome of
the POST: an error for a transport failure or non-success status (axios
rejects those), or the parsed response body.  The source resolves with
the access_token field of the body, which is undefined (none) when the
body lacks it; it does not fail in that case. -/
def getAccessTokenResult (httpResult : Except String JSVal) :
    Except String (Option JSVal) :=
  match httpResult with
  | .error e => .error e
  | .ok body => .ok (jsGetField body "access_token")

/-- The outgoing person GET request of sendPersonRequest: its URL, its
query parameters, and its composite authorization header. -/
structure PersonGetRequest where
  url : String
  params : List (String × String)
  authorizationHeader : String

/-- The request side of sendPersonRequest: the person URL with the
UIN/FIN as a path segment, the two query parameters, and the signed
header with the bearer token appended to the same header value. -/
def sendPersonRequest (c : MyInfoGovClient) (accessToken : String)
    (requestedAttributes : List String) (uinFin : String)
    (nonce timestamp : String) (sign : String → String) : PersonGetRequest :=
  let url := c.baseAPIUrl ++ "/person/" ++ uinFin ++ "/"
  let params : List (String × String) :=
    [("client_id", c.clientId),
     ("attributes", String.intercalate "," requestedAttributes)]
  let paramsAuthHeader := generateAuthHeader c "GET" url params nonce timestamp sign
  { url := url
    params := params
    authorizationHeader := paramsAuthHeader ++ ",Bearer " ++ accessToken }

/-- The stage-identifying wrapper prefix of the token-exchange stage. -/
def tokenStageMsg : String :=
  "The following error occurred while retrieving the access token: "

/-- The stage-identifying wrapper prefix of the identity-extraction stage. -/
def decodeStageMsg : String :=
  "The following error occurred while decoding the token from MyInfo: "

/-- The stage-identifying wrapper prefix of the person-request stage. -/
def personStageMsg : String :=
  "The following error occurred while calling the Person API: "

/-- The getPerson orchestration over the three stage outcomes: obtain
the access token, extract the UIN/FIN from it, fetch the person data
with both, wrapping each stage failure with its stage message and
returning the token paired with the data on success.  The stage
arguments stand for the awaited results of the corresponding methods. -/
def getPerson (getToken : Except String String)
    (extract : String → Except String String)
    (sendPerson : String → String → Except String JSVal) :
    Except String (String × JSVal) :=
  match getToken with
  | .error err => .error (tokenStageMsg ++ err)
  | .ok accessToken =>
    match extract accessToken with
    | .error err => .error (decodeStageMsg ++ err)
    | .ok uinFin =>
      match sendPerson accessToken uinFin with
      | .error err => .error (personStageMsg ++ err)
      | .ok data => .ok (accessToken, data)

/-- The parameter string as the claim words it (spec section 4.2 step
3): each key and value percent-encoded and the pairs joined as
key=value with ampersands, a space encoded as a percent escape and
never as a plus.  Written from the words of the spec, for comparison
with the source-derived signingBaseString. -/
def specEncodedParamString (params : List (String × String)) : String :=
  qsStringify params

/-- A concrete client used by witnesses and counterexamples. -/
def sampleClient : MyInfoGovClient :=
  { clientId := "CID"
    clientSecret := "SECRET"
    redirectEndpoint := "https://app.example/cb"
    clientPrivateKey := "KEY"
    myInfoPublicKey := "PUB"
    singpassEserviceId := "SVC1"
    mode := "prod"
    baseAPIUrl := PROD_URL }

/-- A concrete person record used by witnesses. -/
def samplePerson : JSVal :=
  .obj [("name", .obj [("value", .str "Tan Ah Kow")])]

/-! Canonicalization lemmas. -/

theorem charListLe_iff_not_lt : ∀ as bs : List Char, charListLe as bs = true ↔ ¬ bs < as
  | [], bs => iff_of_true rfl fun h => nomatch h
  | _ :: _, [] => iff_of_false (fun h => nomatch h) fun h => h List.Lex.nil
  | a :: as, b :: bs => by
    by_cases hab : a = b
    · subst hab
      rw [charListLe, if_pos rfl, charListLe_iff_not_lt as bs]
      constructor
      · intro h hlt
        cases hlt with
        | cons h₃ => exact h h₃
        | rel h' => exact lt_irrefl a h'
      · intro h h'
        exact h (List.Lex.cons h')
    · rw [charListLe, if_neg hab]
      constructor
      · intro h hlt
        have hab' : a < b := of_decide_eq_true h
        cases hlt with
        | cons _ => exact hab rfl
        | rel h' => exact lt_asymm hab' h'
      · intro h
        rcases lt_trichotomy a b with hlt | heq | hgt
        · exact decide_eq_true hlt
        · exact absurd heq hab
        · exact absurd (List.Lex.rel hgt) h

theorem strLe_iff (a b : String) : strLe a b = true ↔ a ≤ b := by
  have h : (a ≤ b) ↔ ¬ b < a := Iff.rfl
  rw [h, String.lt_iff_toList_lt]
  exact charListLe_iff_not_lt a.data b.data

instance : IsTotal (String × String) keyLe :=
  ⟨fun a b => by
    simp only [keyLe, strLe_iff]
    exact le_total a.1 b.1⟩

instance : IsTrans (String × String) keyLe :=
  ⟨fun a b c hab hbc => by
    simp only [keyLe, strLe_iff] at *
    exact le_trans hab hbc⟩

theorem sortObjKeys_sorted (l : List (String × String)) :
    (sortObjKeys l).Pairwise fun a b => a.1 ≤ b.1 :=
  (List.sorted_insertionSort keyLe l).imp fun hab => (strLe_iff _ _).mp hab

theorem sortObjKeys_perm (l : List (String × String)) : (sortObjKeys l).Perm l :=
  List.perm_insertionSort keyLe l

theorem sortObjKeys_of_sorted {l : List (String × String)}
    (h : l.Pairwise fun a b => a.1 ≤ b.1) : sortObjKeys l = l :=
  List.Sorted.insertionSort_eq (h.imp fun hab => (strLe_iff _ _).mpr hab)

theorem sortObjKeys_strict_sorted (l : List (String × String))
    (hl : (l.map Prod.fst).Nodup) :
    (sortObjKeys l).Pairwise fun a b => a.1 < b.1 := by
  have hs := sortObjKeys_sorted l
  have hnd : ((sortObjKeys l).map Prod.fst).Nodup :=
    (((sortObjKeys_perm l).map Prod.fst).nodup_iff).mpr hl
  have hne : (sortObjKeys l).Pairwise fun a b => a.1 ≠ b.1 :=
    List.pairwise_map.mp hnd
  exact (hs.and hne).imp fun h => lt_of_le_of_ne h.1 h.2

theorem sortObjKeys_perm_invariant (l₁ l₂ : List (String × String))
    (hp : l₁.Perm l₂) (hn : (l₁.map Prod.fst).Nodup) :
    sortObjKeys l₁ = sortObjKeys l₂ := by
  have hn₂ : (l₂.map Prod.fst).Nodup := ((hp.map Prod.fst).nodup_iff).mp hn
  have h₁ := sortObjKeys_strict_sorted l₁ hn
  have h₂ := sortObjKeys_strict_sorted l₂ hn₂
  have hperm : (sortObjKeys l₁).Perm (sortObjKeys l₂) :=
    ((sortObjKeys_perm l₁).trans hp).trans (sortObjKeys_perm l₂).symm
  exact @List.eq_of_perm_of_sorted _ _
    ⟨fun a b hab hba => absurd (lt_trans hab hba) (lt_irrefl _)⟩ _ _ hperm h₁ h₂

/-! Claim theorems. -/

/-- C2: for all parameter mappings, canonicalization is idempotent and
permutation-invariant: canonicalizing an already key-sorted mapping
returns an identical mapping, any two input mappings that are
permutations of the same entries (any mapping has pairwise distinct
keys) canonicalize to the same output, the output keys are in ascending
lexicographic order by character code, and the entries themselves (in
particular every value) are unchanged up to reordering. -/
theorem sortObjKeys_canonical :
    (∀ l : List (String × String), (l.Pairwise fun a b => a.1 ≤ b.1) → sortObjKeys l = l) ∧
    (∀ l : List (String × String), sortObjKeys (sortObjKeys l) = sortObjKeys l) ∧
    (∀ l₁ l₂ : List (String × String), l₁.Perm l₂ → (l₁.map Prod.fst).Nodup →
      sortObjKeys l₁ = sortObjKeys l₂) ∧
    (∀ l : List (String × String), ((sortObjKeys l).map Prod.fst).Pairwise (· ≤ ·)) ∧
    (∀ l : List (String × String), (sortObjKeys l).Perm l) :=
  ⟨fun _ h => sortObjKeys_of_sorted h,
   fun l => sortObjKeys_of_sorted (sortObjKeys_sorted l),
   sortObjKeys_perm_invariant,
   fun l => List.pairwise_map.mpr (sortObjKeys_sorted l),
   sortObjKeys_perm⟩

/-- Witness for C2 at concrete mappings. -/
theorem sortObjKeys_canonical_witness :
    sortObjKeys [("app_id", "A"), ("nonce", "N")] = [("app_id", "A"), ("nonce", "N")] ∧
    sortObjKeys [("nonce", "N"), ("app_id", "A")] = sortObjKeys [("app_id", "A"), ("nonce", "N")] := by
  have hle : ("app_id" : String) ≤ "nonce" := (strLe_iff _ _).mp (by decide)
  refine ⟨sortObjKeys_canonical.1 _ ?_, sortObjKeys_canonical.2.2.1 _ _ ?_ ?_⟩
  · exact List.pairwise_cons.mpr ⟨fun y hy => by
      simp only [List.mem_singleton] at hy
      subst hy
      exact hle, List.pairwise_singleton _ _⟩
  · exact List.Perm.swap _ _ _
  · decide

/-- C6: constructing a client with any one of the six required fields
empty fails with the configuration validation error, and constructing
it with all six non-empty succeeds. -/
theorem mkMyInfoGovClient_validation (config : IMyInfoConfig) :
    ((config.clientId = "" ∨ config.clientSecret = "" ∨ config.singpassEserviceId = "" ∨
        config.redirectEndpoint = "" ∨ config.clientPrivateKey = "" ∨
        config.myInfoPublicKey = "") →
      mkMyInfoGovClient config = .error missingParamsMsg) ∧
    (config.clientId ≠ "" → config.clientSecret ≠ "" → config.singpassEserviceId ≠ "" →
      config.redirectEndpoint ≠ "" → config.clientPrivateKey ≠ "" →
      config.myInfoPublicKey ≠ "" →
      (mkMyInfoGovClient config).isOk = true) := by
  constructor
  · intro h
    simp only [mkMyInfoGovClient, if_pos h]
  · intro h₁ h₂ h₃ h₄ h₅ h₆
    have h : ¬(config.clientId = "" ∨ config.clientSecret = "" ∨
        config.singpassEserviceId = "" ∨ config.redirectEndpoint = "" ∨
        config.clientPrivateKey = "" ∨ config.myInfoPublicKey = "") := by
      simp [h₁, h₂, h₃, h₄, h₅, h₆]
    simp only [mkMyInfoGovClient, if_neg h, Except.isOk, Except.toBool]

/-- Witness for C6: an all-empty configuration is rejected and an
all-populated one is accepted. -/
theorem mkMyInfoGovClient_validation_witness :
    mkMyInfoGovClient ⟨"", "", "", "", "", "", none⟩ = .error missingParamsMsg ∧
    (mkMyInfoGovClient ⟨"CID", "SECRET", "SVC1", "https://app.example/cb", "KEY", "PUB", none⟩).isOk = true :=
  ⟨(mkMyInfoGovClient_validation _).1 (by decide),
   (mkMyInfoGovClient_validation _).2 (by decide) (by decide) (by decide) (by decide)
     (by decide) (by decide)⟩

/-- C9: an otherwise-valid configuration whose mode is unrecognized or
omitted constructs successfully and the resulting client uses the
production base URL. -/
theorem mkMyInfoGovClient_mode_fallback (config : IMyInfoConfig)
    (h₁ : config.clientId ≠ "") (h₂ : config.clientSecret ≠ "")
    (h₃ : config.singpassEserviceId ≠ "") (h₄ : config.redirectEndpoint ≠ "")
    (h₅ : config.clientPrivateKey ≠ "") (h₆ : config.myInfoPublicKey ≠ "")
    (hmode : config.mode = none ∨
      ∃ m, config.mode = some m ∧ m ≠ "dev" ∧ m ≠ "stg" ∧ m ≠ "prod") :
    (mkMyInfoGovClient config).map (fun c => c.baseAPIUrl) = .ok PROD_URL := by
  have h : ¬(config.clientId = "" ∨ config.clientSecret = "" ∨
      config.singpassEserviceId = "" ∨ config.redirectEndpoint = "" ∨
      config.clientPrivateKey = "" ∨ config.myInfoPublicKey = "") := by
    simp [h₁, h₂, h₃, h₄, h₅, h₆]
  simp only [mkMyInfoGovClient, if_neg h, Except.map]
  rcases hmode with hnone | ⟨m, hm, hd, hs, hp⟩
  · simp [hnone, BASE_URL, PROD_URL]
  · by_cases hme : m = ""
    · simp [hm, hme, BASE_URL, PROD_URL]
    · simp [hm, hme, BASE_URL, hd, hs, hp, PROD_URL]

/-- Witness for C9 at a configuration with the unrecognized mode uat. -/
theorem mkMyInfoGovClient_mode_fallback_witness :
    (mkMyInfoGovClient ⟨"CID", "SECRET", "SVC1", "https://app.example/cb", "KEY", "PUB",
        some "uat"⟩).map (fun c => c.baseAPIUrl) = .ok PROD_URL :=
  mkMyInfoGovClient_mode_fallback _ (by decide) (by decide) (by decide) (by decide)
    (by decide) (by decide) (.inr ⟨"uat", rfl, by decide, by decide, by decide⟩)

/-- C1 counterexample: at a parameter whose value contains a space, the
base string the signer produces differs from the claimed form in which
every key and value is percent-encoded, because the source calls qs
with encoding disabled. -/
theorem signingBaseString_not_percent_encoded :
    signingBaseString sampleClient "GET" "https://api.example/person" [("a", "b c")]
        "NONCE" "1700000000000" ≠
      "GET" ++ "&" ++ "https://api.example/person" ++ "&" ++
        specEncodedParamString
          (authParams sampleClient [("a", "b c")] "NONCE" "1700000000000") := by
  decide

/-- C1 (amended): the signing base string is METHOD&URL&paramString with
the method upper-cased and paramString the canonicalized merged
parameter set (request parameters plus signature_method, nonce,
timestamp, app_id) joined as key=value pairs with every key and value
inserted literally: qs is called with encoding disabled, so nothing is
percent-encoded and a space stays a literal space (never a plus).  The
closed conjunct evaluates one concrete instance in full. -/
theorem signingBaseString_spec (c : MyInfoGovClient) (method url nonce timestamp : String)
    (urlParams : List (String × String)) :
    signingBaseString c method url urlParams nonce timestamp =
      strToUpper method ++ "&" ++ url ++ "&" ++
        qsStringifyUnencoded (sortObjKeys (mergedAuthParams c urlParams nonce timestamp)) ∧
    signingBaseString sampleClient "get" "https://api.example/person" [("a", "b c")]
        "NONCE" "1700000000000" =
      "GET&https://api.example/person&a=b c&app_id=CID&nonce=NONCE&signature_method=RS256&timestamp=1700000000000" :=
  ⟨rfl, by decide⟩

/-- C3: the signer emits exactly the PKI_SIGN header with the timestamp,
nonce, configured client id as app_id, RS256 as signature method and
the base64 signature of the base string; and the person GET request
sends exactly that signed header with a Bearer suffix appended to the
same header value. -/
theorem generateAuthHeader_format (c : MyInfoGovClient) (method url : String)
    (urlParams : List (String × String))
    (nonce timestamp accessToken uinFin : String)
    (attrs : List String) (sign : String → String) :
    generateAuthHeader c method url urlParams nonce timestamp sign =
      "PKI_SIGN timestamp=\"" ++ timestamp ++ "\",nonce=\"" ++ nonce ++ "\",app_id=\"" ++
        c.clientId ++ "\",signature_method=\"RS256\",signature=\"" ++
        sign (signingBaseString c method url urlParams nonce timestamp) ++ "\"" ∧
    (sendPersonRequest c accessToken attrs uinFin nonce timestamp sign).authorizationHeader =
      generateAuthHeader c "GET" (c.baseAPIUrl ++ "/person/" ++ uinFin ++ "/")
        [("client_id", c.clientId), ("attributes", String.intercalate "," attrs)]
        nonce timestamp sign ++ ",Bearer " ++ accessToken :=
  ⟨rfl, rfl⟩

/-- C4: the extractor rejects any token whose algorithm is not RS256,
whatever the payload; on a verified token it returns the sub claim
exactly when the payload is an object with a string sub field; object
claims without a string sub fail with the missing-UIN/FIN error; a
non-object payload fails with the distinct unexpected-shape error. -/
theorem extractUinFin_spec (c : MyInfoGovClient) (t : Jwt) :
    (t.alg ≠ "RS256" → extractUinFin c t = .error "invalid algorithm") ∧
    (∀ fields s, t.alg = "RS256" → t.signatureValid = true →
      t.payload = JSVal.obj fields → jsObjGet fields "sub" = some (JSVal.str s) →
      extractUinFin c t = .ok s) ∧
    (∀ fields, t.alg = "RS256" → t.signatureValid = true →
      t.payload = JSVal.obj fields → (∀ s, jsObjGet fields "sub" ≠ some (JSVal.str s)) →
      extractUinFin c t = .error noUinFinMsg) ∧
    (t.alg = "RS256" → t.signatureValid = true → jsTypeof t.payload ≠ "object" →
      extractUinFin c t = .error unexpectedShapeMsg) ∧
    noUinFinMsg ≠ unexpectedShapeMsg := by
  refine ⟨?_, ?_, ?_, ?_, by decide⟩
  · intro h
    simp [extractUinFin, verifyJwt, h]
  · intro fields s halg hsig hpay hsub
    simp [extractUinFin, verifyJwt, halg, hsig, hpay, jsTypeof, hasProp, jsGetField, hsub]
  · intro fields halg hsig hpay hsub
    cases hv : jsObjGet fields "sub" with
    | none =>
      simp [extractUinFin, verifyJwt, halg, hsig, hpay, jsTypeof, hasProp, jsGetField, hv]
    | some v =>
      cases v <;>
        first
        | exact absurd hv (hsub _)
        | simp [extractUinFin, verifyJwt, halg, hsig, hpay, jsTypeof, hasProp, jsGetField, hv]
  · intro halg hsig hty
    simp [extractUinFin, verifyJwt, halg, hsig, hty]

/-- Witness for C4: an RS256-signed token whose claims carry a string
sub yields that subject, and a non-RS256 token with the same claims is
rejected with the verification error. -/
theorem extractUinFin_spec_witness :
    extractUinFin sampleClient ⟨"RS256", .obj [("sub", .str "S1234567A")], true⟩ =
      .ok "S1234567A" ∧
    extractUinFin sampleClient ⟨"HS256", .obj [("sub", .str "S1234567A")], true⟩ =
      .error "invalid algorithm" ∧
    extractUinFin sampleClient ⟨"RS256", .obj [], true⟩ = .error noUinFinMsg :=
  ⟨(extractUinFin_spec sampleClient _).2.1 [("sub", .str "S1234567A")] "S1234567A"
      rfl rfl rfl rfl,
   (extractUinFin_spec sampleClient _).1 (by decide),
   (extractUinFin_spec sampleClient _).2.2.1 [] rfl rfl rfl (fun s h => by simp [jsObjGet] at h)⟩

/-- C5 counterexample: a success response whose body lacks the token
field makes the exchange resolve with undefined instead of failing. -/
theorem getAccessTokenResult_missing_field :
    getAccessTokenResult (.ok (JSVal.obj [])) = .ok none := rfl

/-- C5 (amended): the token exchange POSTs the five-parameter set with
an authorization header signed over the POST URL and that same full
parameter set, client secret included; a transport error or
non-success status propagates as a failure and a present token field is
returned; but a success body without the token field resolves with
undefined rather than failing. -/
theorem getAccessToken_spec (c : MyInfoGovClient) (authCode nonce timestamp : String)
    (sign : String → String) :
    (getAccessTokenRequest c authCode nonce timestamp sign).url = c.baseAPIUrl ++ "/token" ∧
    (getAccessTokenRequest c authCode nonce timestamp sign).params =
      [("grant_type", "authorization_code"), ("code", authCode),
       ("redirect_uri", c.redirectEndpoint), ("client_id", c.clientId),
       ("client_secret", c.clientSecret)] ∧
    (getAccessTokenRequest c authCode nonce timestamp sign).authHeader =
      generateAuthHeader c "POST" (c.baseAPIUrl ++ "/token")
        [("grant_type", "authorization_code"), ("code", authCode),
         ("redirect_uri", c.redirectEndpoint), ("client_id", c.clientId),
         ("client_secret", c.clientSecret)] nonce timestamp sign ∧
    (∀ e, getAccessTokenResult (.error e) = .error e) ∧
    (∀ body t, jsGetField body "access_token" = some (JSVal.str t) →
      getAccessTokenResult (.ok body) = .ok (some (JSVal.str t))) ∧
    (∀ body, jsGetField body "access_token" = none →
      getAccessTokenResult (.ok body) = .ok none) :=
  ⟨rfl, rfl, rfl, fun _ => rfl,
   fun _ _ h => by simp [getAccessTokenResult, h],
   fun _ h => by simp [getAccessTokenResult, h]⟩

/-- Witness for C5 at a concrete response carrying the token T1. -/
theorem getAccessToken_spec_witness :
    getAccessTokenResult (.ok (JSVal.obj [("access_token", JSVal.str "T1")])) =
      .ok (some (JSVal.str "T1")) :=
  (getAccessToken_spec sampleClient "code" "N" "1" id).2.2.2.2.1 _ "T1" rfl

/-- C7: the orchestration wraps a token-exchange failure, an
extraction failure and a person-request failure each with its own
stage message (the three messages are pairwise distinct), aborts at the
first failing stage, and on success returns the access token paired
with the fetched data. -/
theorem getPerson_spec :
    (∀ (e : String) (extract : String → Except String String)
        (sendPerson : String → String → Except String JSVal),
      getPerson (.error e) extract sendPerson = .error (tokenStageMsg ++ e)) ∧
    (∀ (t e : String) (extract : String → Except String String)
        (sendPerson : String → String → Except String JSVal),
      extract t = .error e →
      getPerson (.ok t) extract sendPerson = .error (decodeStageMsg ++ e)) ∧
    (∀ (t u e : String) (extract : String → Except String String)
        (sendPerson : String → String → Except String JSVal),
      extract t = .ok u → sendPerson t u = .error e →
      getPerson (.ok t) extract sendPerson = .error (personStageMsg ++ e)) ∧
    (∀ (t u : String) (d : JSVal) (extract : String → Except String String)
        (sendPerson : String → String → Except String JSVal),
      extract t = .ok u → sendPerson t u = .ok d →
      getPerson (.ok t) extract sendPerson = .ok (t, d)) ∧
    tokenStageMsg ≠ decodeStageMsg ∧ tokenStageMsg ≠ personStageMsg ∧
    decodeStageMsg ≠ personStageMsg := by
  refine ⟨fun e extract sendPerson => rfl, ?_, ?_, ?_, by decide, by decide, by decide⟩
  · intro t e extract sendPerson h
    simp [getPerson, h]
  · intro t u e extract sendPerson h₁ h₂
    simp [getPerson, h₁, h₂]
  · intro t u d extract sendPerson h₁ h₂
    simp [getPerson, h₁, h₂]

/-- Witness for C7: the mocked end-to-end run with token T1, subject
S0000001X and one name attribute yields the token paired with the
record. -/
theorem getPerson_spec_witness :
    getPerson (Except.ok "T1") (fun _ => Except.ok "S0000001X")
        (fun _ _ => Except.ok samplePerson) = Except.ok ("T1", samplePerson) :=
  getPerson_spec.2.2.2.1 "T1" "S0000001X" samplePerson _ _ rfl rfl

set_option maxRecDepth 4096 in
/-- C8: the redirect URL is the authorise endpoint of the base URL with
the six query parameters in order, the attributes value the requested
scopes joined by commas, and the per-call e-service id and redirect
endpoint overriding the configured ones exactly when supplied.  The two
closed conjuncts evaluate a default and an overridden instance, showing
the standard query encoding of the comma-joined list and of the
redirect URI.  The builder is a total function. -/
theorem createRedirectURL_spec (c : MyInfoGovClient) (req : IAuthRequest) :
    createRedirectURL c req =
      c.baseAPIUrl ++ "/authorise?" ++
        qsStringify
          [("purpose", req.purpose),
           ("attributes", String.intercalate "," req.requestedAttributes),
           ("state", req.relayState),
           ("client_id", c.clientId),
           ("redirect_uri",
             match req.redirectEndpoint with | some r => r | none => c.redirectEndpoint),
           ("sp_esvcId",
             match req.singpassEserviceId with | some s => s | none => c.singpassEserviceId)] ∧
    createRedirectURL sampleClient ⟨"demo", ["name", "email"], "xyz", none, none⟩ =
      "https://myinfosg.api.gov.sg/gov/v3/authorise?purpose=demo&attributes=name%2Cemail&state=xyz&client_id=CID&redirect_uri=https%3A%2F%2Fapp.example%2Fcb&sp_esvcId=SVC1" ∧
    createRedirectURL sampleClient
        ⟨"demo", ["name"], "xyz", some "SVC2", some "https://other.example/cb"⟩ =
      "https://myinfosg.api.gov.sg/gov/v3/authorise?purpose=demo&attributes=name&state=xyz&client_id=CID&redirect_uri=https%3A%2F%2Fother.example%2Fcb&sp_esvcId=SVC2" := by
  refine ⟨?_, by decide, by decide⟩
  obtain ⟨p, attrs, st, svc, re⟩ := req
  cases svc <;> cases re <;> rfl

/-- C10: whatever signature_method, nonce, timestamp or app_id entries
the caller supplies, the signed parameter set carries the protocol
values (RS256, the generated nonce, the generated timestamp, the
configured client id) for those keys and nothing else under those keys,
and the emitted header is identical to the one produced with the
caller-supplied entries for those keys removed. -/
theorem authParams_protocol_override (c : MyInfoGovClient)
    (urlParams : List (String × String)) (nonce timestamp : String) :
    (("signature_method", "RS256") ∈ authParams c urlParams nonce timestamp ∧
      ∀ v, ("signature_method", v) ∈ authParams c urlParams nonce timestamp → v = "RS256") ∧
    (("nonce", nonce) ∈ authParams c urlParams nonce timestamp ∧
      ∀ v, ("nonce", v) ∈ authParams c urlParams nonce timestamp → v = nonce) ∧
    (("timestamp", timestamp) ∈ authParams c urlParams nonce timestamp ∧
      ∀ v, ("timestamp", v) ∈ authParams c urlParams nonce timestamp → v = timestamp) ∧
    (("app_id", c.clientId) ∈ authParams c urlParams nonce timestamp ∧
      ∀ v, ("app_id", v) ∈ authParams c urlParams nonce timestamp → v = c.clientId) ∧
    (∀ (method url : String) (sign : String → String),
      generateAuthHeader c method url urlParams nonce timestamp sign =
        generateAuthHeader c method url
          (urlParams.filter fun p => !(protocolKeys.contains p.1)) nonce timestamp sign) := by
  have hmem : ∀ x, x ∈ authParams c urlParams nonce timestamp ↔
      x ∈ mergedAuthParams c urlParams nonce timestamp :=
    fun x => (sortObjKeys_perm _).mem_iff
  refine ⟨⟨?_, ?_⟩, ⟨?_, ?_⟩, ⟨?_, ?_⟩, ⟨?_, ?_⟩, ?_⟩
  case _ => rw [hmem]; simp [mergedAuthParams]
  case _ =>
    intro v hv
    rw [hmem] at hv
    simp [mergedAuthParams, protocolKeys, List.mem_filter] at hv
    tauto
  case _ => rw [hmem]; simp [mergedAuthParams]
  case _ =>
    intro v hv
    rw [hmem] at hv
    simp [mergedAuthParams, protocolKeys, List.mem_filter] at hv
    tauto
  case _ => rw [hmem]; simp [mergedAuthParams]
  case _ =>
    intro v hv
    rw [hmem] at hv
    simp [mergedAuthParams, protocolKeys, List.mem_filter] at hv
    tauto
  case _ => rw [hmem]; simp [mergedAuthParams]
  case _ =>
    intro v hv
    rw [hmem] at hv
    simp [mergedAuthParams, protocolKeys, List.mem_filter] at hv
    tauto
  intro method url sign
  simp only [generateAuthHeader, signingBaseString, authParams, mergedAuthParams,
    List.filter_filter, Bool.and_self]

/-- Witness for C10: a caller-supplied nonce entry is overridden by the
generated nonce in the signed parameter set. -/
theorem authParams_protocol_override_witness :
    ("nonce", "N") ∈ authParams sampleClient [("nonce", "EVIL")] "N" "1" ∧ "N" = "N" :=
  ⟨(authParams_protocol_override sampleClient [("nonce", "EVIL")] "N" "1").2.1.1,
   (authParams_protocol_override sampleClient [("nonce", "EVIL")] "N" "1").2.1.2 "N"
     (by decide)⟩

end MyInfoClient
